import Mathlib

/-!
Shallow embedding of the macroquad rendering subsystem
(src/camera.rs, src/scene_graph.rs) over the reals.

Machine `f32` values are modelled as real numbers; `u16`/`usize` values as
naturals with explicit `% 65536` where Rust performs an `as u16` cast.
The glam math collaborator (`Mat4`, `Vec2`, `Vec3`) is embedded by its own
definitions since the camera code is a direct composition of its
constructors; matrices are stored row-major as `Matrix (Fin 4) (Fin 4) ℝ`
(glam stores columns, but as linear maps the two presentations agree
entrywise via `M row col`).
-/

namespace Macroquad

open Real

/-- glam `Vec2`: a pair of `f32` coordinates, embedded over `ℝ`. -/
structure Vec2 where
  x : ℝ
  y : ℝ

/-- glam `Vec3`. -/
structure Vec3 where
  x : ℝ
  y : ℝ
  z : ℝ

/-- glam `Vec4`. -/
structure Vec4 where
  x : ℝ
  y : ℝ
  z : ℝ
  w : ℝ

/-- 4×4 real matrix standing for glam `Mat4`, indexed `M row col`. -/
abbrev Mat4 := Matrix (Fin 4) (Fin 4) ℝ

/-- `f32::to_radians`: degrees to radians, `self * (PI / 180)`. -/
noncomputable def toRadians (degrees : ℝ) : ℝ := degrees * (π / 180)

/-- glam `Vec3` componentwise subtraction. -/
def Vec3.sub (a b : Vec3) : Vec3 := ⟨a.x - b.x, a.y - b.y, a.z - b.z⟩

/-- glam `Vec3::dot`. -/
noncomputable def Vec3.dot (a b : Vec3) : ℝ := a.x * b.x + a.y * b.y + a.z * b.z

/-- glam `Vec3::cross`. -/
noncomputable def Vec3.cross (a b : Vec3) : Vec3 :=
  ⟨a.y * b.z - a.z * b.y, a.z * b.x - a.x * b.z, a.x * b.y - a.y * b.x⟩

/-- glam `Vec3::length`: square root of the self dot product. -/
noncomputable def Vec3.length (v : Vec3) : ℝ := Real.sqrt (v.dot v)

/-- glam `Vec3::normalize`: the vector scaled by the reciprocal of its
length (written here as division, which agrees with `* recip`). -/
noncomputable def Vec3.normalize (v : Vec3) : Vec3 :=
  ⟨v.x / v.length, v.y / v.length, v.z / v.length⟩

/-- glam `Mat4::from_translation`. -/
def Mat4.from_translation (v : Vec3) : Mat4 :=
  !![1, 0, 0, v.x;
     0, 1, 0, v.y;
     0, 0, 1, v.z;
     0, 0, 0, 1]

/-- glam `Mat4::from_scale`. -/
def Mat4.from_scale (v : Vec3) : Mat4 :=
  !![v.x, 0, 0, 0;
     0, v.y, 0, 0;
     0, 0, v.z, 0;
     0, 0, 0, 1]

/-- glam `Mat4::from_axis_angle` (Rodrigues rotation; the camera code calls
it with the unit axis `(0, 0, 1)`). -/
noncomputable def Mat4.from_axis_angle (axis : Vec3) (angle : ℝ) : Mat4 :=
  let s := Real.sin angle
  let c := Real.cos angle
  let omc := 1 - c
  !![axis.x * axis.x * omc + c, axis.x * axis.y * omc - axis.z * s,
       axis.x * axis.z * omc + axis.y * s, 0;
     axis.x * axis.y * omc + axis.z * s, axis.y * axis.y * omc + c,
       axis.y * axis.z * omc - axis.x * s, 0;
     axis.x * axis.z * omc - axis.y * s, axis.y * axis.z * omc + axis.x * s,
       axis.z * axis.z * omc + c, 0;
     0, 0, 0, 1]

/-- glam `Mat4::perspective_rh_gl` (expects the field of view in radians). -/
noncomputable def Mat4.perspective_rh_gl
    (fov_y_radians aspect_ratio z_near z_far : ℝ) : Mat4 :=
  let inv_length := 1 / (z_near - z_far)
  let f := 1 / Real.tan (0.5 * fov_y_radians)
  let a := f / aspect_ratio
  let b := (z_near + z_far) * inv_length
  let c := 2 * z_near * z_far * inv_length
  !![a, 0, 0, 0;
     0, f, 0, 0;
     0, 0, b, c;
     0, 0, -1, 0]

/-- glam `Mat4::orthographic_rh_gl`. -/
noncomputable def Mat4.orthographic_rh_gl
    (left right bottom top near far : ℝ) : Mat4 :=
  let a := 2 / (right - left)
  let b := 2 / (top - bottom)
  let c := -2 / (far - near)
  let tx := -(right + left) / (right - left)
  let ty := -(top + bottom) / (top - bottom)
  let tz := -(far + near) / (far - near)
  !![a, 0, 0, tx;
     0, b, 0, ty;
     0, 0, c, tz;
     0, 0, 0, 1]

/-- glam `Mat4::look_at_rh(eye, center, up)`, i.e. `look_to_rh` at the
direction `center - eye`. -/
noncomputable def Mat4.look_at_rh (eye center up : Vec3) : Mat4 :=
  let f := (center.sub eye).normalize
  let s := (f.cross up).normalize
  let u := s.cross f
  !![s.x, s.y, s.z, -(eye.dot s);
     u.x, u.y, u.z, -(eye.dot u);
     -f.x, -f.y, -f.z, eye.dot f;
     0, 0, 0, 1]

/-- glam `Mat4::IDENTITY`. -/
def Mat4.IDENTITY : Mat4 := 1

/-- miniquad texture handle; `Texture::empty()` is the placeholder slot. -/
inductive Texture where
  | empty : Texture
  | handle (id : Nat) : Texture
deriving DecidableEq

/-- A uniform value as it appears in a material's uniform data: the default
shader block holds two `Mat4` uniforms, materials additionally store a
`Vec4` time uniform. -/
inductive UniformValue where
  | mat4 (m : Mat4) : UniformValue
  | vec4 (v : Vec4) : UniformValue

/-- macroquad `Material` as used by `scene_graph.rs`: a 3D pipeline handle,
named texture overrides and named uniform data. The defining module
(`material.rs`) is not part of the sources; only the fields
`pipeline_3d`, `textures_data`, `uniforms_data` and the method
`set_uniform` that `scene_graph.rs` touches are modelled. -/
structure Material where
  pipeline_3d : Nat
  textures_data : List (String × Texture)
  uniforms_data : List (String × UniformValue)

/-- Modelled from the spec: `Material::set_uniform` (its source,
`material.rs`, is missing from the sources). Spec 4.4 step 4 assembles the
uniform payload `{ projection, model, time_vector }` by name, so
`set_uniform name value` records `value` under `name` in the material's
uniform data, replacing any previous entry of that name. -/
def Material.set_uniform (m : Material) (name : String) (value : UniformValue) :
    Material :=
  { m with
    uniforms_data :=
      (m.uniforms_data.filter (fun p => p.1 != name)) ++ [(name, value)] }

/-- macroquad `RenderTarget`: only its `render_pass` handle is read by the
scene graph and the camera code. -/
structure RenderTarget where
  render_pass : Nat

/-- `Projection` from `camera.rs` (the source spells the orthographic
variant `Orthographics`). -/
inductive Projection where
  | Perspective : Projection
  | Orthographics : Projection
deriving DecidableEq

/-- `Camera` from `camera.rs`: the planar (2D) or spatial (3D) variant. -/
inductive Camera where
  | Camera2D (rotation : ℝ) (zoom : Vec2) (target : Vec2) (offset : Vec2) :
      Camera
  | Camera3D (position : Vec3) (target : Vec3) (up : Vec3) (fovy : ℝ)
      (projection : Projection) : Camera

/-- `RenderState` from `camera.rs`. The `material` field is the optional
per-draw material override read by `SceneGraph::draw_model` (the
`scene_graph.rs` revision of the struct). -/
structure RenderState where
  depth_enabled : Bool
  render_target : Option RenderTarget
  aspect : Option ℝ
  camera : Camera
  viewport : Option (Int × Int × Int × Int)
  material : Option Material

/-- `RenderState::Z_NEAR`. -/
noncomputable def RenderState.Z_NEAR : ℝ := 1.1

/-- `RenderState::Z_FAR`. -/
noncomputable def RenderState.Z_FAR : ℝ := 100.0

/-- `RenderState::matrix` from `camera.rs`. The ambient screen size read
through `screen_width() / screen_height()` is passed explicitly. -/
noncomputable def RenderState.matrix (self : RenderState)
    (screen_width screen_height : ℝ) : Mat4 :=
  match self.camera with
  | .Camera2D rotation zoom target offset =>
    let mat_origin := Mat4.from_translation ⟨-target.x, -target.y, 0⟩
    let mat_rotation := Mat4.from_axis_angle ⟨0, 0, 1⟩ (toRadians rotation)
    let mat_scale := Mat4.from_scale ⟨zoom.x, zoom.y, 1⟩
    let mat_translation := Mat4.from_translation ⟨offset.x, offset.y, 0⟩
    mat_translation * ((mat_scale * mat_rotation) * mat_origin)
  | .Camera3D position target up fovy projection =>
    let aspect := self.aspect.getD (screen_width / screen_height)
    match projection with
    | .Perspective =>
      Mat4.perspective_rh_gl fovy aspect RenderState.Z_NEAR RenderState.Z_FAR *
        Mat4.look_at_rh position target up
    | .Orthographics =>
      let top := fovy / 2
      let right := top * aspect
      Mat4.orthographic_rh_gl (-right) right (-top) top
          RenderState.Z_NEAR RenderState.Z_FAR *
        Mat4.look_at_rh position target up

/-- Content of a miniquad GPU buffer as created by `scene_graph.rs`:
16-bit index data, `[f32; 2]` data or `[f32; 3]` data. -/
inductive BufferContent where
  | u16s (data : List Nat) : BufferContent
  | vec2s (data : List Vec2) : BufferContent
  | vec3s (data : List Vec3) : BufferContent

/-- A miniquad `Buffer` created through `Buffer::immutable`. -/
structure Buffer where
  content : BufferContent

/-- miniquad `Buffer::size`: the byte size of the buffer (`u16` entries are
2 bytes, `[f32; 2]` entries 8 bytes, `[f32; 3]` entries 12 bytes). -/
def Buffer.size (b : Buffer) : Nat :=
  match b.content with
  | .u16s data => 2 * data.length
  | .vec2s data => 8 * data.length
  | .vec3s data => 12 * data.length

/-- miniquad `Bindings`. -/
structure Bindings where
  vertex_buffers : List Buffer
  index_buffer : Buffer
  images : List Texture

/-- `Model` from `scene_graph.rs`. -/
structure Model where
  bindings : Bindings

/-- One primitive of a parsed gltf document, as exposed by the gltf crate
reader used in `load_model`: each accessor is optional. Index values are
the `u32` results of `read_indices().into_u32()`. -/
structure Primitive where
  indices : Option (List Nat)
  positions : Option (List Vec3)
  tex_coords : Option (List Vec2)
  normals : Option (List Vec3)

/-- One mesh of a parsed gltf document. -/
structure Mesh where
  primitives : List Primitive

/-- A parsed gltf document (`gltf::import_slice` output; the external
parser itself is out of scope, so `load_model` takes the parsed
document). -/
structure Gltf where
  meshes : List Mesh

/-- macroquad `FileError` (from `file.rs`): the typed error of
`load_file`, propagated unchanged by `load_model`. -/
inductive FileError where
  | iOError (path : String) : FileError
deriving DecidableEq

/-- Outcome of running a fallible operation that may also panic: Rust
`Result::Ok`, `Result::Err`, or an `assert!`/`unwrap` panic. -/
inductive LoadOutcome (α : Type) where
  | ok (value : α) : LoadOutcome α
  | err (e : FileError) : LoadOutcome α
  | crash (msg : String) : LoadOutcome α

/-- `LoadOutcome.ok` discriminator. -/
def LoadOutcome.isOk {α : Type} : LoadOutcome α → Bool
  | .ok _ => true
  | _ => false

/-- `load_model` from `scene_graph.rs`, with the awaited `load_file`
result and the gltf parse folded into the `file` argument: `.error`
stands for the `?`-propagated `FileError`. Mesh/primitive shape checks
are `assert!` macros and the accessor reads are `unwrap()` calls, both of
which panic (`crash`) rather than return an error. `ix as u16` truncates
each index modulo 2^16. -/
def load_model (file : Except FileError Gltf) : LoadOutcome Model :=
  match file with
  | .error e => .err e
  | .ok gltf =>
    if gltf.meshes.length ≠ 1 then
      .crash ("assertion failed: gltf.meshes().len() == 1")
    else
      match gltf.meshes.head? with
      | none => .crash ("meshes next unwrap on None")
      | some mesh =>
        if mesh.primitives.length ≠ 1 then
          .crash ("assertion failed: mesh.primitives().len() == 1")
        else
          match mesh.primitives.head? with
          | none => .crash ("primitives next unwrap on None")
          | some primitive =>
            match primitive.indices with
            | none => .crash ("read_indices unwrap on None")
            | some source_indices =>
              let indices : List Nat :=
                source_indices.map (fun ix => ix % 65536)
              match primitive.positions with
              | none => .crash ("read_positions unwrap on None")
              | some vertices =>
                match primitive.tex_coords with
                | none => .crash ("read_tex_coords unwrap on None")
                | some uvs =>
                  match primitive.normals with
                  | none => .crash ("read_normals unwrap on None")
                  | some normals =>
                    let vertex_buffer : Buffer := ⟨.vec3s vertices⟩
                    let normals_buffer : Buffer := ⟨.vec3s normals⟩
                    let uvs_buffer : Buffer := ⟨.vec2s uvs⟩
                    let index_buffer : Buffer := ⟨.u16s indices⟩
                    .ok
                      { bindings :=
                          { vertex_buffers :=
                              [vertex_buffer, uvs_buffer, normals_buffer]
                            index_buffer := index_buffer
                            images := [Texture.empty, Texture.empty] } }

/-- macroquad `QuadGl` (from `quad_gl.rs`, not among the sources): the
pooled 2D draw-command accumulator. Only the identity of the pooled
object and the render pass bound by `QuadGl::render_pass` are modelled;
its accumulated 2D draw commands play no role in the claims. -/
structure QuadGl where
  render_pass : Option Nat

/-- `QuadGl::new`. -/
def QuadGl.new : QuadGl := ⟨none⟩

/-- `SpriteLayer` from `scene_graph.rs`. -/
structure SpriteLayer where
  gl : QuadGl
  render_state : RenderState

/-- `SceneGraph` from `scene_graph.rs`. -/
structure SceneGraph where
  models : List (Model × Mat4)
  layers_cache : List QuadGl
  default_material : Material

/-- `SceneGraph::new`. Shader and pipeline construction go through the
miniquad device boundary; the resulting default material is modelled with
pipeline handle 0 and empty texture/uniform data. -/
def SceneGraph.new : SceneGraph :=
  { models := []
    layers_cache := [QuadGl.new, QuadGl.new, QuadGl.new]
    default_material :=
      { pipeline_3d := 0, textures_data := [], uniforms_data := [] } }

/-- Rust `Vec::pop`: removes and returns the last element, `none` when the
vector is empty. -/
def vecPop {α : Type} (v : List α) : Option (α × List α) :=
  match v.reverse with
  | [] => none
  | x :: rest => some (x, rest.reverse)

/-- `SceneGraph::add_model`: pushes `(model, Mat4::IDENTITY)` and returns
the new entry's index as the handle. -/
def SceneGraph.add_model (sg : SceneGraph) (model : Model) :
    SceneGraph × Nat :=
  let models := sg.models ++ [(model, Mat4.IDENTITY)]
  ({ sg with models := models }, models.length - 1)

/-- `SceneGraph::sprite_layer`: pops a pooled accumulator
(`self.layers_cache.pop().unwrap()`, hence `none` models the panic on an
empty pool), rebinds its render pass to the render state's target, and
hands it out bound to that render state. -/
def SceneGraph.sprite_layer (sg : SceneGraph) (render_state : RenderState) :
    Option (SpriteLayer × SceneGraph) :=
  match vecPop sg.layers_cache with
  | none => none
  | some (gl, rest) =>
    let render_pass := render_state.render_target.map (fun rt => rt.render_pass)
    let gl := { gl with render_pass := render_pass }
    some (⟨gl, render_state⟩, { sg with layers_cache := rest })

/-- `SceneGraph::draw_canvas`: computes the layer's view-projection matrix
from its bound render state, flushes the accumulator with it (the flushed
2D commands are opaque here; the matrix used is returned as the
observable), and pushes the accumulator back onto the pool. -/
noncomputable def SceneGraph.draw_canvas (sg : SceneGraph)
    (canvas : SpriteLayer) (screen_width screen_height : ℝ) :
    SceneGraph × Mat4 :=
  let screen_mat := canvas.render_state.matrix screen_width screen_height
  ({ sg with layers_cache := sg.layers_cache ++ [canvas.gl] }, screen_mat)

/-- `SceneGraph::set_transform`: `self.models[model].1 = transform`. Rust
`Vec` indexing panics out of bounds, modelled as `none`. -/
def SceneGraph.set_transform (sg : SceneGraph) (model : Nat)
    (transform : Mat4) : Option SceneGraph :=
  if h : model < sg.models.length then
    some
      { sg with
        models := sg.models.set model ((sg.models.get ⟨model, h⟩).1, transform) }
  else none

/-- miniquad `PassAction`. -/
inductive PassAction where
  | nothing : PassAction
  | clear_color (r g b a : ℝ) : PassAction

/-- One GPU call issued through the miniquad context, in issue order. The
two uniform-upload forms mirror the two call sites in `draw_model`:
`apply_uniforms_from_bytes` uploads a material's named uniform data,
`apply_uniforms` uploads the default `shader::Uniforms { projection,
model }` struct. -/
inductive Cmd where
  | begin_pass (pass : Nat) (action : PassAction) : Cmd
  | begin_default_pass (action : PassAction) : Cmd
  | apply_pipeline (pipeline : Nat) : Cmd
  | apply_bindings (b : Bindings) : Cmd
  | apply_uniforms_from_bytes (data : List (String × UniformValue)) : Cmd
  | apply_uniforms (projection : Mat4) (model : Mat4) : Cmd
  | draw (base num_elements num_instances : Nat) : Cmd
  | end_render_pass : Cmd

/-- The `_Time` uniform value built in `draw_model`:
`vec4(time, time.sin(), time.cos(), 0.)`. -/
noncomputable def timeVec (t : ℝ) : Vec4 := ⟨t, Real.sin t, Real.cos t, 0⟩

/-- `SceneGraph::draw_model` from `scene_graph.rs`, as the list of GPU
calls it issues plus the updated render state (its `&mut` material keeps
the uniform values written by `set_uniform`). The ambient time
(`get_time()`) and screen size are passed explicitly. `bindings.images[0]`
is only assigned in the material branch; models built by `load_model`
carry two image slots, so the `List.set` at index 0 matches the Rust
index assignment. -/
noncomputable def SceneGraph.draw_model (sg : SceneGraph)
    (render_state : RenderState) (model : Model) (transform : Mat4)
    (time screen_width screen_height : ℝ) : List Cmd × RenderState :=
  let begin_cmd : Cmd :=
    match render_state.render_target.map (fun rt => rt.render_pass) with
    | some pass => .begin_pass pass .nothing
    | none => .begin_default_pass .nothing
  let pipeline_cmd : Cmd :=
    match render_state.material with
    | some material => .apply_pipeline material.pipeline_3d
    | none => .apply_pipeline sg.default_material.pipeline_3d
  let bindings := model.bindings
  let bindings :=
    match render_state.material with
    | some material =>
      { bindings with
        images :=
          bindings.images.set 0
            ((material.textures_data.lookup "Texture").getD Texture.empty) }
    | none => bindings
  let projection := render_state.matrix screen_width screen_height
  let time_vec := timeVec time
  let draw_cmd : Cmd := .draw 0 (model.bindings.index_buffer.size / 2) 1
  match render_state.material with
  | some material =>
    let material := material.set_uniform "Projection" (.mat4 projection)
    let material := material.set_uniform "Model" (.mat4 transform)
    let material := material.set_uniform "_Time" (.vec4 time_vec)
    ([begin_cmd, pipeline_cmd, .apply_bindings bindings,
        .apply_uniforms_from_bytes material.uniforms_data, draw_cmd,
        .end_render_pass],
      { render_state with material := some material })
  | none =>
    ([begin_cmd, pipeline_cmd, .apply_bindings bindings,
        .apply_uniforms projection transform, draw_cmd, .end_render_pass],
      render_state)

/-- Discriminator for indexed draw calls in a command trace. -/
def Cmd.isDraw : Cmd → Bool
  | .draw _ _ _ => true
  | _ => false

/-- Discriminator for uniform uploads in a command trace (either form). -/
def Cmd.isUniformUpload : Cmd → Bool
  | .apply_uniforms_from_bytes _ => true
  | .apply_uniforms _ _ => true
  | _ => false

/-- A command carries the time vector `(t, sin t, cos t, 0)` exactly when
it is a named-uniform upload whose data holds that vector under the name
used by `draw_model` for the time uniform. The default
`shader::Uniforms` struct has only `projection` and `model` fields, so a
plain `apply_uniforms` upload never carries a time vector. -/
def Cmd.carriesTimeVec (c : Cmd) (v : Vec4) : Prop :=
  match c with
  | .apply_uniforms_from_bytes data => ("_Time", UniformValue.vec4 v) ∈ data
  | _ => False

/-- The orthographic half-height: `let top = fovy / 2.0` in
`RenderState::matrix`. -/
noncomputable def orthoTop (fovy : ℝ) : ℝ := fovy / 2

/-- The orthographic half-width: `let right = top * aspect`. -/
noncomputable def orthoRight (fovy aspect : ℝ) : ℝ := orthoTop fovy * aspect

/-- C3: with a spatial orthographic camera and an explicitly set aspect,
`matrix()` is the symmetric GL orthographic projection over
`[-right, right] × [-top, top] × [Z_NEAR, Z_FAR]` with `top = fovy / 2`
and `right = top * aspect`, times `look_at(position, target, up)`; and
doubling `fovy` at fixed aspect doubles both `top` and `right`. -/
theorem orthographic_matrix_spec (rs : RenderState) (position target up : Vec3)
    (fovy a : ℝ)
    (hc : rs.camera = .Camera3D position target up fovy .Orthographics)
    (ha : rs.aspect = some a) (sw sh : ℝ) :
    rs.matrix sw sh =
      Mat4.orthographic_rh_gl (-(orthoRight fovy a)) (orthoRight fovy a)
          (-(orthoTop fovy)) (orthoTop fovy)
          RenderState.Z_NEAR RenderState.Z_FAR *
        Mat4.look_at_rh position target up ∧
      orthoTop (2 * fovy) = 2 * orthoTop fovy ∧
      orthoRight (2 * fovy) a = 2 * orthoRight fovy a := by
  obtain ⟨de, rt, asp, cam, vp, mat⟩ := rs
  simp only at hc ha
  subst hc ha
  refine ⟨?_, ?_, ?_⟩
  · simp [RenderState.matrix, orthoTop, orthoRight]
  · unfold orthoTop; ring
  · unfold orthoRight orthoTop; ring

/-- Witness for C3 at a concrete orthographic render state. -/
theorem orthographic_matrix_spec_witness :
    (RenderState.mk false none (some 2)
          (.Camera3D ⟨0, 0, 1⟩ ⟨0, 0, 0⟩ ⟨0, 1, 0⟩ 45 .Orthographics)
          none none).matrix 800 600 =
      Mat4.orthographic_rh_gl (-(orthoRight 45 2)) (orthoRight 45 2)
          (-(orthoTop 45)) (orthoTop 45) RenderState.Z_NEAR RenderState.Z_FAR *
        Mat4.look_at_rh ⟨0, 0, 1⟩ ⟨0, 0, 0⟩ ⟨0, 1, 0⟩ ∧
      orthoTop (2 * 45) = 2 * orthoTop 45 ∧
      orthoRight (2 * 45) 2 = 2 * orthoRight 45 2 :=
  orthographic_matrix_spec _ _ _ _ _ _ rfl rfl 800 600

/-- C9: every `draw_model` call issues exactly one indexed draw, starting
at element 0, whose element count is the byte size of the model's 16-bit
index buffer divided by 2, i.e. the number of stored index elements. -/
theorem draw_model_full_index_buffer (sg : SceneGraph) (rs : RenderState)
    (model : Model) (transform : Mat4) (t sw sh : ℝ) (l : List Nat)
    (h : model.bindings.index_buffer = ⟨.u16s l⟩) :
    ((sg.draw_model rs model transform t sw sh).1.filter Cmd.isDraw) =
      [Cmd.draw 0 l.length 1] := by
  rcases hrt : rs.render_target with _ | rt <;>
    rcases hm : rs.material with _ | m <;>
      simp [SceneGraph.draw_model, hrt, hm, h, Buffer.size, Cmd.isDraw,
        Nat.mul_div_cancel_left]

/-- Concrete model used by the C9 and C8 witnesses: three vertices, one
triangle, laid out as `load_model` lays out its bindings. -/
def modelW : Model :=
  ⟨⟨[⟨.vec3s []⟩, ⟨.vec2s []⟩, ⟨.vec3s []⟩], ⟨.u16s [0, 1, 2]⟩,
    [.empty, .empty]⟩⟩

/-- Concrete planar render state with no material override, used by
witnesses. -/
def rsW : RenderState :=
  ⟨false, none, none, .Camera2D 0 ⟨1, 1⟩ ⟨0, 0⟩ ⟨0, 0⟩, none, none⟩

/-- Witness for C9 at a concrete draw of a one-triangle model. -/
theorem draw_model_full_index_buffer_witness :
    ((SceneGraph.new.draw_model rsW modelW Mat4.IDENTITY 0 800 600).1.filter
        Cmd.isDraw) =
      [Cmd.draw 0 3 1] := by
  simpa using
    draw_model_full_index_buffer SceneGraph.new rsW modelW Mat4.IDENTITY
      0 800 600 [0, 1, 2] rfl

/-- C10: for a handle in range, `set_transform` replaces exactly that
entry's transform, keeping the entry's model, every other entry, the
layer pool and the default material; for a handle out of range it panics
(modelled as `none`) instead of silently doing nothing. -/
theorem set_transform_spec (sg : SceneGraph) (i : Nat) (T : Mat4) :
    (∀ h : i < sg.models.length,
      ∃ sg' entry,
        sg.set_transform i T = some sg' ∧
        sg.models[i]? = some entry ∧
        sg'.models[i]? = some (entry.1, T) ∧
        (∀ j, j ≠ i → sg'.models[j]? = sg.models[j]?) ∧
        sg'.layers_cache = sg.layers_cache ∧
        sg'.default_material = sg.default_material) ∧
    (sg.models.length ≤ i → sg.set_transform i T = none) := by
  constructor
  · intro h
    refine
      ⟨{ sg with
          models := sg.models.set i ((sg.models.get ⟨i, h⟩).1, T) },
        sg.models.get ⟨i, h⟩, ?_, ?_, ?_, ?_, rfl, rfl⟩
    · simp [SceneGraph.set_transform, h]
    · simp [List.getElem?_eq_getElem h]
    · simp [List.getElem?_set_self (by simpa using h)]
    · intro j hj
      simp [List.getElem?_set_ne (Ne.symm hj)]
  · intro h
    simp [SceneGraph.set_transform, Nat.not_lt.mpr h]

/-- Witness for C10 on a two-model scene graph at handle 0 (in range) and,
via the second conjunct, handle 5 (out of range). -/
theorem set_transform_spec_witness :
    ((∃ sg' entry,
        (SceneGraph.mk [(modelW, Mat4.IDENTITY), (modelW, Mat4.IDENTITY)]
              [] ⟨0, [], []⟩).set_transform 0 Mat4.IDENTITY = some sg' ∧
        (SceneGraph.mk [(modelW, Mat4.IDENTITY), (modelW, Mat4.IDENTITY)]
              [] ⟨0, [], []⟩).models[0]? = some entry ∧
        sg'.models[0]? = some (entry.1, Mat4.IDENTITY) ∧
        (∀ j, j ≠ 0 →
          sg'.models[j]? =
            (SceneGraph.mk [(modelW, Mat4.IDENTITY), (modelW, Mat4.IDENTITY)]
                [] ⟨0, [], []⟩).models[j]?) ∧
        sg'.layers_cache = [] ∧
        sg'.default_material = ⟨0, [], []⟩) ∧
      (SceneGraph.mk [(modelW, Mat4.IDENTITY), (modelW, Mat4.IDENTITY)]
            [] ⟨0, [], []⟩).set_transform 5 Mat4.IDENTITY = none) :=
  ⟨(set_transform_spec
        (SceneGraph.mk [(modelW, Mat4.IDENTITY), (modelW, Mat4.IDENTITY)]
          [] ⟨0, [], []⟩) 0 Mat4.IDENTITY).1 (by simp),
    (set_transform_spec
        (SceneGraph.mk [(modelW, Mat4.IDENTITY), (modelW, Mat4.IDENTITY)]
          [] ⟨0, [], []⟩) 5 Mat4.IDENTITY).2 (by simp)⟩

/-- A two-mesh gltf document (both meshes empty). -/
def twoMeshGltf : Gltf := ⟨[⟨[]⟩, ⟨[]⟩]⟩

/-- C4 counterexample: on an asset with 2 meshes, `load_model` panics at
the `assert!` (modelled as `crash`) instead of returning a typed error
result, so the claim that it returns an `AssetShapeError` to the caller
fails. -/
theorem load_model_two_meshes_crashes :
    load_model (.ok twoMeshGltf) =
      .crash ("assertion failed: gltf.meshes().len() == 1") := rfl

/-- C4 amended: for a mesh count other than 1, or a single mesh whose
primitive count is not 1, `load_model` panics via `assert!` and returns
no `Model` (neither `ok` nor a typed error). -/
theorem load_model_shape_assert_crashes (g : Gltf) :
    (g.meshes.length ≠ 1 →
      load_model (.ok g) =
        .crash ("assertion failed: gltf.meshes().len() == 1")) ∧
    (∀ mesh, g.meshes = [mesh] → mesh.primitives.length ≠ 1 →
      load_model (.ok g) =
        .crash ("assertion failed: mesh.primitives().len() == 1")) := by
  constructor
  · intro h
    simp [load_model, h]
  · intro mesh hm hp
    obtain ⟨ms⟩ := g
    simp only at hm
    subst hm
    simp [load_model, hp]

/-- Witness for C4 at the concrete two-mesh document and at a one-mesh
document with two primitives. -/
theorem load_model_shape_assert_crashes_witness :
    (load_model (.ok twoMeshGltf) =
      .crash ("assertion failed: gltf.meshes().len() == 1")) ∧
    (load_model (.ok ⟨[⟨[⟨none, none, none, none⟩, ⟨none, none, none, none⟩]⟩]⟩) =
      .crash ("assertion failed: mesh.primitives().len() == 1")) :=
  ⟨(load_model_shape_assert_crashes twoMeshGltf).1 (by simp [twoMeshGltf]),
    (load_model_shape_assert_crashes
        ⟨[⟨[⟨none, none, none, none⟩, ⟨none, none, none, none⟩]⟩]⟩).2
      ⟨[⟨none, none, none, none⟩, ⟨none, none, none, none⟩]⟩ rfl (by simp)⟩

/-- A single-mesh, single-primitive document whose index accessor holds
the value 65536, which does not fit in 16 bits. -/
def bigIndexGltf : Gltf :=
  ⟨[⟨[⟨some [65536, 0, 1], some [], some [], some []⟩]⟩]⟩

/-- C5 counterexample: a source index of 65536 (> 65535) does not make
the load fail; `ix as u16` silently truncates it modulo 2^16 and
`load_model` returns a `Model` whose first index is 0. -/
theorem load_model_large_index_truncates :
    load_model (.ok bigIndexGltf) =
      .ok
        ⟨⟨[⟨.vec3s []⟩, ⟨.vec2s []⟩, ⟨.vec3s []⟩], ⟨.u16s [0, 0, 1]⟩,
          [.empty, .empty]⟩⟩ := by
  rfl

/-- C5 amended: a well-formed single-mesh/single-primitive asset with 3N
source indices loads into a `Model` whose index buffer holds exactly 3N
elements, each strictly below 65536; source indices above 65535 are
truncated modulo 2^16 rather than failing the load. -/
theorem load_model_index_buffer_shape (g : Gltf) (mesh : Mesh)
    (primitive : Primitive) (source_indices : List Nat) (pos : List Vec3)
    (uv : List Vec2) (nor : List Vec3) (N : Nat)
    (hm : g.meshes = [mesh]) (hp : mesh.primitives = [primitive])
    (hi : primitive.indices = some source_indices)
    (hpos : primitive.positions = some pos)
    (huv : primitive.tex_coords = some uv)
    (hnor : primitive.normals = some nor)
    (hN : source_indices.length = 3 * N) :
    ∃ m : Model,
      load_model (.ok g) = .ok m ∧
      m.bindings.index_buffer.content =
        .u16s (source_indices.map (fun ix => ix % 65536)) ∧
      (source_indices.map (fun ix => ix % 65536)).length = 3 * N ∧
      ∀ x ∈ source_indices.map (fun ix => ix % 65536), x < 65536 := by
  obtain ⟨ms⟩ := g
  obtain ⟨prims⟩ := mesh
  obtain ⟨pidx, ppos, ptex, pnor⟩ := primitive
  simp only at hm hp hi hpos huv hnor
  subst hm hp hi hpos huv hnor
  refine
    ⟨⟨⟨[⟨.vec3s pos⟩, ⟨.vec2s uv⟩, ⟨.vec3s nor⟩],
        ⟨.u16s (source_indices.map (fun ix => ix % 65536))⟩,
        [.empty, .empty]⟩⟩, ?_, rfl, ?_, ?_⟩
  · simp [load_model]
  · simpa using hN
  · intro x hx
    simp only [List.mem_map] at hx
    obtain ⟨ix, -, rfl⟩ := hx
    exact Nat.mod_lt ix (by norm_num)

/-- Witness for C5 on a concrete one-triangle document. -/
theorem load_model_index_buffer_shape_witness :
    ∃ m : Model,
      load_model (.ok ⟨[⟨[⟨some [5, 6, 7], some [], some [], some []⟩]⟩]⟩) =
        .ok m ∧
      m.bindings.index_buffer.content =
        .u16s ([5, 6, 7].map (fun ix => ix % 65536)) ∧
      ([5, 6, 7].map (fun ix => ix % 65536)).length = 3 * 1 ∧
      ∀ x ∈ [5, 6, 7].map (fun ix => ix % 65536), x < 65536 :=
  load_model_index_buffer_shape ⟨[⟨[⟨some [5, 6, 7], some [], some [], some []⟩]⟩]⟩
    ⟨[⟨some [5, 6, 7], some [], some [], some []⟩]⟩
    ⟨some [5, 6, 7], some [], some [], some []⟩ [5, 6, 7] [] [] [] 1
    rfl rfl rfl rfl rfl rfl rfl

/-- A single-mesh, single-primitive document with indices, positions and
normals but no UV accessor. -/
def noUvGltf : Gltf := ⟨[⟨[⟨some [0, 1, 2], some [], none, some []⟩]⟩]⟩

/-- C6 counterexample: on an otherwise well-formed asset with no UV
array, `load_model` panics at `read_tex_coords(0).unwrap()` instead of
succeeding, so UV is not optional as claimed. -/
theorem load_model_missing_uv_crashes_example :
    load_model (.ok noUvGltf) = .crash ("read_tex_coords unwrap on None") := rfl

/-- C6 amended: `load_model` requires the UV attribute; for every
single-mesh/single-primitive asset supplying indices, positions and
normals but no UV array, the load panics at the UV `unwrap` and returns
no `Model`. -/
theorem load_model_missing_uv_crashes (g : Gltf) (mesh : Mesh)
    (primitive : Primitive) (source_indices : List Nat) (pos : List Vec3)
    (nor : List Vec3)
    (hm : g.meshes = [mesh]) (hp : mesh.primitives = [primitive])
    (hi : primitive.indices = some source_indices)
    (hpos : primitive.positions = some pos)
    (huv : primitive.tex_coords = none)
    (hnor : primitive.normals = some nor) :
    load_model (.ok g) = .crash ("read_tex_coords unwrap on None") := by
  obtain ⟨ms⟩ := g
  obtain ⟨prims⟩ := mesh
  obtain ⟨pidx, ppos, ptex, pnor⟩ := primitive
  simp only at hm hp hi hpos huv hnor
  subst hm hp hi hpos huv hnor
  simp [load_model]

/-- Witness for C6 at the concrete no-UV document. -/
theorem load_model_missing_uv_crashes_witness :
    load_model (.ok noUvGltf) = .crash ("read_tex_coords unwrap on None") :=
  load_model_missing_uv_crashes noUvGltf ⟨[⟨some [0, 1, 2], some [], none, some []⟩]⟩
    ⟨some [0, 1, 2], some [], none, some []⟩ [0, 1, 2] [] []
    rfl rfl rfl rfl rfl rfl

/-- Popping the last element shortens a vector by exactly one. -/
theorem vecPop_length {α : Type} {v : List α} {x : α} {rest : List α}
    (h : vecPop v = some (x, rest)) : rest.length + 1 = v.length := by
  unfold vecPop at h
  cases hr : v.reverse with
  | nil => rw [hr] at h; simp at h
  | cons y ys =>
    rw [hr] at h
    simp only [Option.some.injEq, Prod.mk.injEq] at h
    obtain ⟨-, rfl⟩ := h
    have hv : v.length = (y :: ys).length := by
      rw [← List.length_reverse v, hr]
    simp only [List.length_reverse, List.length_cons] at hv ⊢
    omega

/-- C7: a checkout (`sprite_layer`) removes exactly one pooled
accumulator, and the matching submit (`draw_canvas`) returns exactly one,
so the pool ends at its size before the checkout; the pool starts with 3
accumulators at construction. -/
theorem layer_pool_roundtrip (sg : SceneGraph) (rs : RenderState)
    (layer : SpriteLayer) (sg' : SceneGraph) (sw sh : ℝ)
    (h : sg.sprite_layer rs = some (layer, sg')) :
    sg'.layers_cache.length + 1 = sg.layers_cache.length ∧
    (sg'.draw_canvas layer sw sh).1.layers_cache.length =
      sg.layers_cache.length ∧
    SceneGraph.new.layers_cache.length = 3 := by
  unfold SceneGraph.sprite_layer at h
  cases hv : vecPop sg.layers_cache with
  | none => rw [hv] at h; simp at h
  | some glrest =>
    obtain ⟨gl, rest⟩ := glrest
    rw [hv] at h
    simp only [Option.some.injEq, Prod.mk.injEq] at h
    obtain ⟨-, rfl⟩ := h
    have hlen := vecPop_length hv
    refine ⟨by simpa using hlen, ?_, rfl⟩
    simp only [SceneGraph.draw_canvas, List.length_append, List.length_cons,
      List.length_nil]
    simpa using hlen

/-- Witness for C7: checking a layer out of a fresh scene graph and
submitting it brings the pool back to 3. -/
theorem layer_pool_roundtrip_witness :
    (SceneGraph.mk [] [QuadGl.new, QuadGl.new] ⟨0, [], []⟩).layers_cache.length
        + 1 =
      SceneGraph.new.layers_cache.length ∧
    ((SceneGraph.mk [] [QuadGl.new, QuadGl.new] ⟨0, [], []⟩).draw_canvas
          ⟨⟨none⟩, rsW⟩ 800 600).1.layers_cache.length =
      SceneGraph.new.layers_cache.length ∧
    SceneGraph.new.layers_cache.length = 3 :=
  layer_pool_roundtrip SceneGraph.new rsW ⟨⟨none⟩, rsW⟩
    (SceneGraph.mk [] [QuadGl.new, QuadGl.new] ⟨0, [], []⟩) 800 600 rfl

/-- C8 counterexample: in the default-material path the uniform upload of
`draw_model` is the plain `shader::Uniforms` struct, which carries no
time vector at all, refuting the claim that every `draw_model` uniform
payload contains `(t, sin t, cos t, 0)`. -/
theorem draw_model_default_payload_lacks_time :
    Cmd.isUniformUpload
        ((SceneGraph.new.draw_model rsW modelW Mat4.IDENTITY 0 800 600).1.getD 3
          Cmd.end_render_pass) =
      true ∧
    ¬ Cmd.carriesTimeVec
        ((SceneGraph.new.draw_model rsW modelW Mat4.IDENTITY 0 800 600).1.getD 3
          Cmd.end_render_pass)
        (timeVec 0) := by
  constructor
  · simp [SceneGraph.draw_model, rsW, Cmd.isUniformUpload]
  · simp [SceneGraph.draw_model, rsW, Cmd.carriesTimeVec]

/-- C8 amended: with a material override the uploaded payload holds the
projection, the model transform and the time vector `(t, sin t, cos t,
0)` under their uniform names; in the default-material path the payload
is the `shader::Uniforms` struct holding exactly the projection and the
model transform, with no time vector. -/
theorem draw_model_uniform_payload (sg : SceneGraph) (rs : RenderState)
    (model : Model) (transform : Mat4) (t sw sh : ℝ) :
    (rs.material = none →
      ((sg.draw_model rs model transform t sw sh).1.filter
          Cmd.isUniformUpload) =
        [Cmd.apply_uniforms (rs.matrix sw sh) transform]) ∧
    (∀ m, rs.material = some m →
      ∃ data,
        ((sg.draw_model rs model transform t sw sh).1.filter
            Cmd.isUniformUpload) =
          [Cmd.apply_uniforms_from_bytes data] ∧
        ("Projection", UniformValue.mat4 (rs.matrix sw sh)) ∈ data ∧
        ("Model", UniformValue.mat4 transform) ∈ data ∧
        ("_Time", UniformValue.vec4 (timeVec t)) ∈ data) := by
  constructor
  · intro h
    rcases hrt : rs.render_target with _ | rt <;>
      simp [SceneGraph.draw_model, h, hrt, Cmd.isUniformUpload]
  · intro m h
    refine
      ⟨(((m.set_uniform "Projection" (.mat4 (rs.matrix sw sh))).set_uniform
            "Model" (.mat4 transform)).set_uniform
          "_Time" (.vec4 (timeVec t))).uniforms_data, ?_, ?_, ?_, ?_⟩
    · rcases hrt : rs.render_target with _ | rt <;>
        simp [SceneGraph.draw_model, h, hrt, Cmd.isUniformUpload]
    · refine List.mem_append_left _ (List.mem_filter.mpr ⟨?_, rfl⟩)
      refine List.mem_append_left _ (List.mem_filter.mpr ⟨?_, rfl⟩)
      exact List.mem_append_right _ (List.mem_singleton.mpr rfl)
    · refine List.mem_append_left _ (List.mem_filter.mpr ⟨?_, rfl⟩)
      exact List.mem_append_right _ (List.mem_singleton.mpr rfl)
    · exact List.mem_append_right _ (List.mem_singleton.mpr rfl)

/-- Witness for C8 at a concrete material-override draw. -/
theorem draw_model_uniform_payload_witness :
    ∃ data,
      ((SceneGraph.new.draw_model
            { rsW with material := some ⟨7, [], []⟩ } modelW Mat4.IDENTITY
            0 800 600).1.filter
          Cmd.isUniformUpload) =
        [Cmd.apply_uniforms_from_bytes data] ∧
      ("Projection",
          UniformValue.mat4
            ({ rsW with material := some ⟨7, [], []⟩ }.matrix 800 600)) ∈
        data ∧
      ("Model", UniformValue.mat4 Mat4.IDENTITY) ∈ data ∧
      ("_Time", UniformValue.vec4 (timeVec 0)) ∈ data :=
  (draw_model_uniform_payload SceneGraph.new
      { rsW with material := some ⟨7, [], []⟩ } modelW Mat4.IDENTITY
      0 800 600).2 ⟨7, [], []⟩ rfl

/-- The planar camera matrix exactly as the spec words it:
`Translate(offset) · Scale(zoom) · Rotate(-rotation) · Translate(-target)`
with the rotation angle negated. Kept separate from
`RenderState.matrix` so the two can be compared. -/
noncomputable def specPlanarMatrix (rotation : ℝ) (zoom target offset : Vec2) :
    Mat4 :=
  Mat4.from_translation ⟨offset.x, offset.y, 0⟩ *
    Mat4.from_scale ⟨zoom.x, zoom.y, 1⟩ *
    Mat4.from_axis_angle ⟨0, 0, 1⟩ (-(toRadians rotation)) *
    Mat4.from_translation ⟨-target.x, -target.y, 0⟩

/-- A planar render state rotated by 90 degrees, with unit zoom and zero
target/offset. -/
def rs90 : RenderState :=
  ⟨false, none, none, .Camera2D 90 ⟨1, 1⟩ ⟨0, 0⟩ ⟨0, 0⟩, none, none⟩

/-- C1 counterexample: at `rotation = 90` (zoom `(1,1)`, target and offset
zero) the code's matrix rotates by `+90°` (entry `(0,1)` is `-1`) while
the claimed composition with `Rotate(-rotation)` has entry `(0,1)` equal
to `1`, so `matrix()` is not the claimed composition. -/
theorem planar_rotation_sign_counterexample :
    rs90.matrix 800 600 ≠ specPlanarMatrix 90 ⟨1, 1⟩ ⟨0, 0⟩ ⟨0, 0⟩ := by
  intro h
  have h90 : toRadians 90 = π / 2 := by unfold toRadians; ring
  have hcode : rs90.matrix 800 600 0 1 = -1 := by
    simp [rs90, RenderState.matrix, Mat4.from_translation, Mat4.from_scale,
      Mat4.from_axis_angle, h90, Real.sin_pi_div_two, Real.cos_pi_div_two,
      Matrix.mul_apply, Fin.sum_univ_four, Matrix.vecHead, Matrix.vecTail]
  have hspec : specPlanarMatrix 90 ⟨1, 1⟩ ⟨0, 0⟩ ⟨0, 0⟩ 0 1 = 1 := by
    simp [specPlanarMatrix, Mat4.from_translation, Mat4.from_scale,
      Mat4.from_axis_angle, h90, Real.sin_pi_div_two, Real.cos_pi_div_two,
      Matrix.mul_apply, Fin.sum_univ_four, Matrix.vecHead, Matrix.vecTail]
  have hent := congrFun (congrFun h 0) 1
  rw [hcode, hspec] at hent
  norm_num at hent

/-- C1 amended: the planar matrix is the composition
`Translate(offset) · Scale(zoom) · Rotate(+rotation) · Translate(-target)`
— the same order and translation/scale signs as claimed, but rotating by
plus the rotation angle (degrees converted to radians), not minus. -/
theorem planar_matrix_composition (rs : RenderState) (rotation : ℝ)
    (zoom target offset : Vec2) (sw sh : ℝ)
    (h : rs.camera = .Camera2D rotation zoom target offset) :
    rs.matrix sw sh =
      Mat4.from_translation ⟨offset.x, offset.y, 0⟩ *
        Mat4.from_scale ⟨zoom.x, zoom.y, 1⟩ *
        Mat4.from_axis_angle ⟨0, 0, 1⟩ (toRadians rotation) *
        Mat4.from_translation ⟨-target.x, -target.y, 0⟩ := by
  obtain ⟨de, rt, asp, cam, vp, mat⟩ := rs
  simp only at h
  subst h
  simp only [RenderState.matrix, Matrix.mul_assoc]

/-- Witness for C1 at the identity planar camera. -/
theorem planar_matrix_composition_witness :
    rsW.matrix 800 600 =
      Mat4.from_translation ⟨(Vec2.mk 0 0).x, (Vec2.mk 0 0).y, 0⟩ *
        Mat4.from_scale ⟨(Vec2.mk 1 1).x, (Vec2.mk 1 1).y, 1⟩ *
        Mat4.from_axis_angle ⟨0, 0, 1⟩ (toRadians 0) *
        Mat4.from_translation ⟨-(Vec2.mk 0 0).x, -(Vec2.mk 0 0).y, 0⟩ :=
  planar_matrix_composition rsW 0 ⟨1, 1⟩ ⟨0, 0⟩ ⟨0, 0⟩ 800 600 rfl

/-- The spatial perspective matrix exactly as the spec words it:
`perspective(fovy in degrees converted to radians, aspect, Z_NEAR, Z_FAR)`
times `look_at(position, target, up)`. -/
noncomputable def specPerspectiveMatrix (position target up : Vec3)
    (fovy aspect : ℝ) : Mat4 :=
  Mat4.perspective_rh_gl (toRadians fovy) aspect RenderState.Z_NEAR
      RenderState.Z_FAR *
    Mat4.look_at_rh position target up

/-- A spatial perspective render state with `fovy = π` (≈ 3.14 degrees),
aspect 1, eye at `(0,0,1)` looking at the origin with up `(0,1,0)`. -/
noncomputable def rsC2 : RenderState :=
  ⟨false, none, some 1,
    .Camera3D ⟨0, 0, 1⟩ ⟨0, 0, 0⟩ ⟨0, 1, 0⟩ π .Perspective, none, none⟩

/-- C2: `matrix()` passes `fovy` — documented in `camera.rs` as degrees —
straight to `perspective_rh_gl`, which expects radians; no conversion
happens. At `fovy = π` the code's focal scale `1 / tan(π/2)` collapses to
0 while the degree-interpreted projection of the claim keeps a positive
focal scale, so the two matrices differ at entry `(1,1)`. -/
theorem perspective_fovy_radians_bug :
    rsC2.matrix 800 600 ≠
      specPerspectiveMatrix ⟨0, 0, 1⟩ ⟨0, 0, 0⟩ ⟨0, 1, 0⟩ π 1 := by
  intro h
  have hL : Mat4.look_at_rh ⟨0, 0, 1⟩ ⟨0, 0, 0⟩ ⟨0, 1, 0⟩ 1 1 = 1 := by
    simp [Mat4.look_at_rh, Vec3.normalize, Vec3.cross, Vec3.dot, Vec3.sub,
      Vec3.length, Matrix.vecHead, Matrix.vecTail]
  have hcode : rsC2.matrix 800 600 1 1 = 0 := by
    have hf : 1 / Real.tan (0.5 * π) = 0 := by
      rw [show (0.5 : ℝ) * π = π / 2 by ring, Real.tan_pi_div_two]
      simp
    simp [rsC2, RenderState.matrix, Mat4.perspective_rh_gl, hf,
      Matrix.mul_apply, Matrix.vecMul, Matrix.dotProduct, Fin.sum_univ_four,
      Matrix.vecHead, Matrix.vecTail]
  have hspec :
      specPerspectiveMatrix ⟨0, 0, 1⟩ ⟨0, 0, 0⟩ ⟨0, 1, 0⟩ π 1 1 1 =
        1 / Real.tan (0.5 * toRadians π) := by
    simp [specPerspectiveMatrix, Mat4.perspective_rh_gl, Matrix.mul_apply,
      Fin.sum_univ_four, Matrix.vecHead, Matrix.vecTail, hL]
  have htan : 0 < Real.tan (0.5 * toRadians π) := by
    apply Real.tan_pos_of_pos_of_lt_pi_div_two
    · unfold toRadians; positivity
    · unfold toRadians
      nlinarith [Real.pi_gt_three, Real.pi_lt_d2]
  have hent := congrFun (congrFun h 1) 1
  rw [hcode, hspec] at hent
  exact absurd hent.symm (ne_of_gt (one_div_pos.mpr htan))

end Macroquad
